import Mathlib

/-!
Shallow embedding of `app.py` ("Business-Finder"): a pipeline that searches
places through a text-search endpoint, filters out places that already have a
website, enriches the remainder through a details endpoint, and exports the
rows.  Network transports and library calls are modelled as explicit inputs
(scripted responses); sleeps are recorded as events (milliseconds) in traces.
-/

namespace BusinessFinder

/-- Python values that the program feeds to `has_site`: absent (`None`),
strings, and booleans (its own result, for the double-application question). -/
inductive PyVal : Type
  | none : PyVal
  | str : String → PyVal
  | bool : Bool → PyVal
  deriving DecidableEq, Repr

/-- Python `str(x)` on the values of `PyVal`. -/
def pyStr : PyVal → String
  | PyVal.none => "None"
  | PyVal.str s => s
  | PyVal.bool true => "True"
  | PyVal.bool false => "False"

/-- ASCII whitespace stripped by Python `str.strip()` (the program only ever
strips ASCII data). -/
def isPySpace (c : Char) : Bool :=
  c = ' ' || c = '\t' || c = '\n' || c = '\x0d' || c = '\x0b' || c = '\x0c'

/-- Python `str.strip()`: drop leading and trailing whitespace. -/
def pyStrip (s : String) : String :=
  String.mk (((s.data.dropWhile isPySpace).reverse.dropWhile isPySpace).reverse)

/-- Python `str.upper()` (ASCII letters; all data reaching `has_site` is
ASCII). -/
def pyUpper (s : String) : String :=
  String.mk (s.data.map Char.toUpper)

/-- The sentinel set of `has_site` in `app.py` (lines 372-382). -/
def siteSentinels : List String := ["N/A", "NA", "NONE", "NULL"]

/-- Embedding of `has_site` (`app.py` lines 372-382): `None` is no site; the
stringified, stripped value must be non-empty and its uppercasing must avoid
the sentinel set. -/
def has_site (x : PyVal) : Bool :=
  match x with
  | PyVal.none => false
  | _ =>
    let s := pyStrip (pyStr x)
    if s = "" then false
    else !(siteSentinels.contains (pyUpper s))

/-- A heterogeneous cell value, for record fields that carry either an API
number or a default string such as `"N/A"` (Python dicts are untyped). -/
inductive Cell : Type
  | str : String → Cell
  | num : ℚ → Cell
  deriving DecidableEq, Repr

/-- One place object of a text-search response (`places[i]`), with every field
optional as in JSON; `displayName` is an object that may itself lack `text`. -/
structure RawPlace where
  id : Option String
  displayName : Option (Option String)
  formattedAddress : Option String
  rating : Option ℚ
  userRatingCount : Option Int
  businessStatus : Option String
  websiteUri : Option String
  deriving DecidableEq, Repr

/-- One row of `fetch_businesses_v1`'s result list (`app.py` lines 148-158). -/
structure SearchResult where
  name : String
  address : String
  rating : Cell
  user_ratings_total : Int
  business_status : String
  place_id : Option String
  website : String
  deriving DecidableEq, Repr

/-- Row construction inside the pagination loop (`app.py` lines 147-158):
`(p.get("displayName") or {}).get("text", "N/A")` etc.; the website defaults
to the empty string via Python `or`. -/
def toSearchResult (p : RawPlace) : SearchResult where
  name := (Option.join p.displayName).getD "N/A"
  address := p.formattedAddress.getD "N/A"
  rating :=
    match p.rating with
    | some q => Cell.num q
    | Option.none => Cell.str "N/A"
  user_ratings_total := p.userRatingCount.getD 0
  business_status := p.businessStatus.getD "N/A"
  place_id := p.id
  website := p.websiteUri.getD ""

/-- A scripted response of the text-search endpoint: HTTP status, the
`places` array, and the optional `nextPageToken`. -/
structure TextResp where
  status : Nat
  places : List RawPlace
  nextPageToken : Option String
  deriving DecidableEq, Repr

/-- Python truthiness of `data.get("nextPageToken")`: a token is only acted on
when it is present and non-empty. -/
def truthyS : Option String → Bool
  | some s => s ≠ ""
  | Option.none => false

/-- The `pageToken` field the loop actually puts in the request body:
present only when the held token is truthy. -/
def tokenArg (t : Option String) : Option String :=
  match t with
  | some s => if s = "" then Option.none else some s
  | Option.none => Option.none

/-- The pagination loop of `fetch_businesses_v1` (`app.py` lines 136-165).
`server n` is the response to the `n`-th request; `fuel` is the number of
further pages the `pages_fetched >= max_pages` check still allows.  Returns
the accumulated rows, the `pageToken` argument of every request issued (in
order), and the sleeps (milliseconds) between page requests. -/
def fetchGo (server : Nat → TextResp) :
    Nat → Option String → Nat → List SearchResult × List (Option String) × List Nat
  | reqIdx, page_token, fuel =>
    let resp := server reqIdx
    let req := tokenArg page_token
    if resp.status ≠ 200 then ([], [req], [])
    else
      let rows := resp.places.map toSearchResult
      let tok := resp.nextPageToken
      match fuel with
      | 0 => (rows, [req], [])
      | fuel' + 1 =>
        if truthyS tok then
          let rest := fetchGo server (reqIdx + 1) tok fuel'
          (rows ++ rest.1, req :: rest.2.1, 1000 :: rest.2.2)
        else (rows, [req], [])

/-- Embedding of `fetch_businesses_v1` (`app.py` lines 93-167) with the HTTP
transport as a scripted function.  The first request carries no page token;
the loop increments `pages_fetched` each iteration and breaks once it reaches
`max_pages`, so after the first request at most `max_pages - 1` further pages
are fetched (one page is always requested, as in the Python `while True`). -/
def fetch_businesses_v1 (server : Nat → TextResp) (max_pages : Nat) :
    List SearchResult × List (Option String) × List Nat :=
  fetchGo server 0 Option.none (max_pages - 1)

/-- A scripted server answering request `n` from a finite list of mocked
responses (anything past the script is a 500). -/
def scriptServer (script : List TextResp) : Nat → TextResp :=
  fun n => script.getD n ⟨500, [], Option.none⟩

/-- The empty details structure produced by a JSON `{}` (every field
absent). -/
structure DetailsResp where
  id : Option String
  displayName : Option (Option String)
  formattedAddress : Option String
  internationalPhoneNumber : Option String
  nationalPhoneNumber : Option String
  websiteUri : Option String
  googleMapsUri : Option String
  rating : Option ℚ
  userRatingCount : Option Int
  businessStatus : Option String
  deriving DecidableEq, Repr

/-- `{}`: the record with every field absent, returned when all retries
fail. -/
def emptyDetails : DetailsResp :=
  ⟨Option.none, Option.none, Option.none, Option.none, Option.none,
   Option.none, Option.none, Option.none, Option.none, Option.none⟩

/-- A scripted response of the details endpoint: HTTP status and parsed
body. -/
structure DetHttp where
  status : Nat
  body : DetailsResp
  deriving DecidableEq, Repr

/-- The retry loop of `get_detailed_info_v1` (`app.py` lines 220-226):
attempt `fuel` more requests; a 200 returns its body at once, a failure
sleeps 1.2 s and retries.  Returns the result, the number of requests made,
and the sleeps (milliseconds) in trace order. -/
def detGo (server : Nat → DetHttp) : Nat → Nat → DetailsResp × Nat × List Nat
  | _, 0 => (emptyDetails, 0, [])
  | attempt, fuel + 1 =>
    let r := server attempt
    if r.status = 200 then (r.body, 1, [])
    else
      let rest := detGo server (attempt + 1) fuel
      (rest.1, rest.2.1 + 1, 1200 :: rest.2.2)

/-- Embedding of `get_detailed_info_v1` (`app.py` lines 197-226) with the
HTTP transport as a scripted function indexed by attempt number. -/
def get_detailed_info_v1 (server : Nat → DetHttp) (retries : Nat := 3) :
    DetailsResp × Nat × List Nat :=
  detGo server 0 retries

/-- Python `a or b` on an optional string `a`: `a` when it is present and
non-empty (truthy), otherwise `b`. -/
def pyOr (a : Option String) (b : String) : String :=
  match a with
  | some s => if s = "" then b else s
  | Option.none => b

/-- One output row of `enrich_with_details_v1` (`app.py` lines 249-264);
field names follow the dict keys (spaces dropped). -/
structure DetailedRecord where
  Name : String
  Address : String
  Rating : Cell
  UserRatings : Int
  BusinessStatus : String
  PhoneNational : String
  PhoneIntl : String
  Phone : String
  Website : String
  GoogleMapsURL : String
  PlaceID : Option String
  FetchedAt : String
  deriving DecidableEq, Repr

/-- Row construction of the enrichment loop body (`app.py` lines 240-264):
`d` is the details response, `b` the search row, `now` the timestamp string
produced at this iteration. -/
def enrichRow (d : DetailsResp) (b : SearchResult) (now : String) : DetailedRecord where
  Name := pyOr (Option.join d.displayName) b.name
  Address := d.formattedAddress.getD b.address
  Rating :=
    match d.rating with
    | some q => Cell.num q
    | Option.none => b.rating
  UserRatings := d.userRatingCount.getD b.user_ratings_total
  BusinessStatus := d.businessStatus.getD b.business_status
  PhoneNational := pyOr d.nationalPhoneNumber ""
  PhoneIntl := pyOr d.internationalPhoneNumber ""
  Phone := pyOr d.nationalPhoneNumber (pyOr d.internationalPhoneNumber "N/A")
  Website := pyOr d.websiteUri (pyOr (some b.website) "")
  GoogleMapsURL := d.googleMapsUri.getD "N/A"
  PlaceID :=
    match d.id with
    | some s => some s
    | Option.none => b.place_id
  FetchedAt := now

/-- Embedding of `enrich_with_details_v1` (`app.py` lines 229-272).
`details` maps a row's `place_id` to the (already resolved) result of the
details client.  Returns the enriched rows and the progress fractions
`i / len(raw_places)` reported after each iteration (`i = 1..n`); progress
division is modelled exactly, over `ℚ`.  An empty input returns immediately
with no rows and no progress reports. -/
def enrich_with_details_v1 (details : Option String → DetailsResp) (now : String)
    (raw_places : List SearchResult) : List DetailedRecord × List ℚ :=
  if raw_places = [] then ([], [])
  else
    ((raw_places.map fun b => enrichRow (details b.place_id) b now),
     (List.range raw_places.length).map
       fun (i : Nat) => ((i : ℚ) + 1) / (raw_places.length : ℚ))

/-- The pre-details filter pass at module top level (`app.py` lines 385-389):
applied only when the "only no-website" box is checked. -/
def preFilter (only_no_website : Bool) (places : List SearchResult) :
    List SearchResult :=
  if only_no_website then
    places.filter fun p => !(has_site (PyVal.str p.website))
  else places

/-- The post-enrichment safety filter pass (`app.py` lines 400-401): applied
only when the "only no-website" box is checked. -/
def postFilter (only_no_website : Bool) (enriched : List DetailedRecord) :
    List DetailedRecord :=
  if only_no_website then
    enriched.filter fun row => !(has_site (PyVal.str row.Website))
  else enriched

/-- The end-to-end run after a successful search (`app.py` lines 384-403):
pre-filter, halt on an empty remainder (`st.stop`, modelled as `none`),
enrich, post-filter. -/
def run_pipeline (only_no_website : Bool) (places : List SearchResult)
    (details : Option String → DetailsResp) (now : String) :
    Option (List DetailedRecord) :=
  let places_no_site := preFilter only_no_website places
  if places_no_site = [] then Option.none
  else
    some (postFilter only_no_website
      (enrich_with_details_v1 details now places_no_site).1)

/-- UTF-8 encoding of one character (the byte sequence Python's
`codecs.utf_8` produces). -/
def utf8EncodeChar (c : Char) : List Nat :=
  let n := c.toNat
  if n < 0x80 then [n]
  else if n < 0x800 then
    [0xC0 + n / 0x40, 0x80 + n % 0x40]
  else if n < 0x10000 then
    [0xE0 + n / 0x1000, 0x80 + n / 0x40 % 0x40, 0x80 + n % 0x40]
  else
    [0xF0 + n / 0x40000, 0x80 + n / 0x1000 % 0x40, 0x80 + n / 0x40 % 0x40,
     0x80 + n % 0x40]

/-- Python `s.encode("utf-8-sig")`: a byte-order marker followed by the UTF-8
bytes of `s`. -/
def encodeUtf8Sig (s : String) : List Nat :=
  [0xEF, 0xBB, 0xBF] ++ s.data.foldr (fun c acc => utf8EncodeChar c ++ acc) []

/-- The value returned by `dataframe_to_excel_bytes`. -/
structure ExportOut where
  bytes : List Nat
  mime : String
  filename : String
  deriving DecidableEq, Repr

/-- MIME type of the spreadsheet outputs in `app.py` lines 289 and 303. -/
def xlsxMime : String :=
  "application/vnd.openxmlformats-officedocument.spreadsheetml.sheet"

/-- Embedding of `dataframe_to_excel_bytes` (`app.py` lines 278-312).  The
two spreadsheet backends are modelled by their outcomes: `Except.ok` carries
the bytes a successful `to_excel` writes, `Except.error` carries the message
of whatever exception the backend raised (import failure or write failure —
the buffer of a failed attempt is discarded).  `csv` is the string
`df.to_csv(index=False)` returns. -/
def dataframe_to_excel_bytes (openpyxlOutcome xlsxwriterOutcome : Except String (List Nat))
    (csv : String) : ExportOut :=
  match openpyxlOutcome with
  | Except.ok bs => ⟨bs, xlsxMime, "business_list.xlsx"⟩
  | Except.error _ =>
    match xlsxwriterOutcome with
    | Except.ok bs => ⟨bs, xlsxMime, "business_list.xlsx"⟩
    | Except.error _ => ⟨encodeUtf8Sig csv, "text/csv", "business_list.csv"⟩

end BusinessFinder

namespace BusinessFinder

/-- Requests issued by the pagination loop never exceed its fuel plus the
initial request. -/
theorem fetchGo_requests_le (server : Nat → TextResp) :
    ∀ (fuel reqIdx : Nat) (tok : Option String),
      (fetchGo server reqIdx tok fuel).2.1.length ≤ fuel + 1 := by
  intro fuel
  induction fuel with
  | zero =>
      intro reqIdx tok
      rw [fetchGo]
      split <;> simp
  | succ n ih =>
      intro reqIdx tok
      rw [fetchGo]
      split
      · simp
      · split
        · simp
        · rename_i fuel1 fuel2 heq
          obtain rfl : fuel2 = n := by omega
          dsimp only
          split
          · have h2 := ih (reqIdx + 1) ((server reqIdx).nextPageToken)
            simp only [List.length_cons]
            omega
          · simp

/-- The retry loop never makes more requests than its remaining attempt
budget. -/
theorem detGo_requests_le (server : Nat → DetHttp) :
    ∀ (fuel attempt : Nat), (detGo server attempt fuel).2.1 ≤ fuel := by
  intro fuel
  induction fuel with
  | zero => intro attempt; simp [detGo]
  | succ n ih =>
      intro attempt
      rw [detGo]
      split
      · simp
      · have := ih (attempt + 1)
        simpa using this

/-- C2: the text-search client requests page 1 with no page token and passes
each response's next-page token on the following request; a mocked token
sequence A → B → (none) yields exactly 3 requests with results concatenated in
response order and a 1-second (1000 ms) delay between page requests;
`max_pages = 2` stops after 2 requests even though a token remains; and in
general at most `max_pages` requests are issued. -/
theorem c2_pagination_tokens (p1 p2 p3 : List RawPlace) (tA tB : String)
    (hA : tA ≠ "") (hB : tB ≠ "") :
    (fetch_businesses_v1
        (scriptServer [⟨200, p1, some tA⟩, ⟨200, p2, some tB⟩, ⟨200, p3, Option.none⟩]) 3 =
      ((p1 ++ p2 ++ p3).map toSearchResult,
        [Option.none, some tA, some tB], [1000, 1000])) ∧
    (fetch_businesses_v1
        (scriptServer [⟨200, p1, some tA⟩, ⟨200, p2, some tB⟩, ⟨200, p3, Option.none⟩]) 2 =
      ((p1 ++ p2).map toSearchResult, [Option.none, some tA], [1000])) ∧
    (∀ (server : Nat → TextResp) (mp : Nat), 1 ≤ mp →
      (fetch_businesses_v1 server mp).2.1.length ≤ mp) := by
  refine ⟨?_, ?_, ?_⟩
  · simp [fetch_businesses_v1, fetchGo, scriptServer, truthyS, tokenArg, hA, hB]
  · simp [fetch_businesses_v1, fetchGo, scriptServer, truthyS, tokenArg, hA, hB]
  · intro server mp hmp
    have := fetchGo_requests_le server (mp - 1) 0 Option.none
    unfold fetch_businesses_v1
    omega

/-- Witness for C2 at concrete tokens "A", "B" and empty pages. -/
theorem c2_pagination_tokens_witness :
    (("A" : String) ≠ "") ∧ (("B" : String) ≠ "") ∧
    (fetch_businesses_v1
        (scriptServer [⟨200, [], some "A"⟩, ⟨200, [], some "B"⟩, ⟨200, [], Option.none⟩]) 3 =
      ([], [Option.none, some "A", some "B"], [1000, 1000])) ∧
    (fetch_businesses_v1
        (scriptServer [⟨200, [], some "A"⟩, ⟨200, [], some "B"⟩, ⟨200, [], Option.none⟩]) 2 =
      ([], [Option.none, some "A"], [1000])) ∧
    (fetch_businesses_v1 (scriptServer []) 1).2.1.length ≤ 1 :=
  ⟨by decide, by decide,
   by simpa using
     (c2_pagination_tokens [] [] [] "A" "B" (by decide) (by decide)).1,
   by simpa using
     (c2_pagination_tokens [] [] [] "A" "B" (by decide) (by decide)).2.1,
   (c2_pagination_tokens [] [] [] "A" "B" (by decide) (by decide)).2.2
     (scriptServer []) 1 (by decide)⟩

/-- C4: the details client makes up to 3 attempts, returning the parsed body
immediately on the first HTTP 200; consecutive attempts are separated by a
1.2-second (1200 ms) sleep; when all attempts fail it returns the empty
structure (every field absent) rather than raising; and it never makes more
requests than the retry budget. -/
theorem c4_details_retry (server : Nat → DetHttp) :
    ((server 0).status = 200 →
      get_detailed_info_v1 server 3 = ((server 0).body, 1, [])) ∧
    ((server 0).status ≠ 200 → (server 1).status = 200 →
      get_detailed_info_v1 server 3 = ((server 1).body, 2, [1200])) ∧
    ((server 0).status ≠ 200 → (server 1).status ≠ 200 → (server 2).status = 200 →
      get_detailed_info_v1 server 3 = ((server 2).body, 3, [1200, 1200])) ∧
    ((server 0).status ≠ 200 → (server 1).status ≠ 200 → (server 2).status ≠ 200 →
      get_detailed_info_v1 server 3 = (emptyDetails, 3, [1200, 1200, 1200])) ∧
    (∀ r : Nat, (get_detailed_info_v1 server r).2.1 ≤ r) := by
  refine ⟨?_, ?_, ?_, ?_, ?_⟩
  · intro h0
    simp [get_detailed_info_v1, detGo, h0]
  · intro h0 h1
    simp [get_detailed_info_v1, detGo, h0, h1]
  · intro h0 h1 h2
    simp [get_detailed_info_v1, detGo, h0, h1, h2]
  · intro h0 h1 h2
    simp [get_detailed_info_v1, detGo, h0, h1, h2]
  · intro r
    exact detGo_requests_le server r 0

/-- Witness for C4: an always-200 server returns on the first attempt; an
always-500 server exhausts all three attempts and degrades to the empty
structure. -/
theorem c4_details_retry_witness :
    ((fun _ : Nat => DetHttp.mk 200 emptyDetails) 0).status = 200 ∧
    (get_detailed_info_v1 (fun _ : Nat => DetHttp.mk 200 emptyDetails) 3 =
      (emptyDetails, 1, [])) ∧
    (get_detailed_info_v1 (fun _ : Nat => DetHttp.mk 500 emptyDetails) 3 =
      (emptyDetails, 3, [1200, 1200, 1200])) :=
  ⟨rfl,
   (c4_details_retry (fun _ : Nat => DetHttp.mk 200 emptyDetails)).1 rfl,
   (c4_details_retry (fun _ : Nat => DetHttp.mk 500 emptyDetails)).2.2.2.1
     (by decide) (by decide) (by decide)⟩

/-- C1: `has_site` returns `false` exactly on absent values, values whose
stringified trimmed form is empty, and values whose trimmed form uppercases
into the sentinel set `{N/A, NA, NONE, NULL}`; every other value is `true`. -/
theorem c1_has_site_classification (x : PyVal) :
    has_site x = false ↔
      (x = PyVal.none ∨ pyStrip (pyStr x) = "" ∨
        pyUpper (pyStrip (pyStr x)) ∈ siteSentinels) := by
  cases x with
  | none => simp [has_site]
  | str s =>
      simp only [has_site]
      by_cases h : pyStrip (pyStr (PyVal.str s)) = "" <;>
        simp_all [List.contains, List.elem_eq_mem]
  | bool b =>
      cases b <;> decide

/-- A truthiness inversion: an optional string is falsy exactly when it is
absent or empty. -/
theorem truthyS_eq_false {o : Option String} :
    truthyS o = false ↔ o = Option.none ∨ o = some "" := by
  cases o with
  | none => simp [truthyS]
  | some s => simp [truthyS]

/-- A details response carrying both phone formats. -/
def dPhones : DetailsResp :=
  { emptyDetails with
      nationalPhoneNumber := some "011-123",
      internationalPhoneNumber := some "+27-11-123" }

/-- A details response carrying only the international phone format. -/
def dIntlOnly : DetailsResp :=
  { emptyDetails with internationalPhoneNumber := some "+27-11-123" }

/-- A details response carrying a website. -/
def dSite : DetailsResp :=
  { emptyDetails with websiteUri := some "http://example.com" }

/-- A sample search row with no website. -/
def sampleSearchRow : SearchResult :=
  { name := "Shop", address := "1 Main Rd", rating := Cell.str "N/A",
    user_ratings_total := 0, business_status := "OPERATIONAL",
    place_id := some "p1", website := "" }

/-- A sample raw search place carrying no website field. -/
def sampleRawPlace : RawPlace :=
  { id := some "p1", displayName := some (some "Shop"),
    formattedAddress := some "1 Main Rd", rating := Option.none,
    userRatingCount := some 5, businessStatus := some "OPERATIONAL",
    websiteUri := Option.none }

/-- An enriched row whose resolved Website is the literal string "N/A". -/
def sampleRowNA : DetailedRecord :=
  { Name := "Shop", Address := "1 Main Rd", Rating := Cell.str "N/A",
    UserRatings := 0, BusinessStatus := "OPERATIONAL", PhoneNational := "",
    PhoneIntl := "", Phone := "N/A", Website := "N/A",
    GoogleMapsURL := "N/A", PlaceID := some "p1", FetchedAt := "2026-01-01" }

/-- An enriched row whose resolved Website is a real site. -/
def sampleRowSite : DetailedRecord :=
  { sampleRowNA with Website := "http://example.com" }

/-- C3: the Phone field prefers the national number, then the international
number, then the literal "N/A".  "Present" is truthiness at the JSON
boundary: the field exists and is non-empty (Python `or` treats an empty
string like an absent field). -/
theorem c3_phone_preference (d : DetailsResp) (b : SearchResult) (now : String) :
    (∀ n, d.nationalPhoneNumber = some n → n ≠ "" →
      (enrichRow d b now).Phone = n) ∧
    (truthyS d.nationalPhoneNumber = false →
      ∀ i, d.internationalPhoneNumber = some i → i ≠ "" →
        (enrichRow d b now).Phone = i) ∧
    (truthyS d.nationalPhoneNumber = false →
      truthyS d.internationalPhoneNumber = false →
      (enrichRow d b now).Phone = "N/A") := by
  refine ⟨?_, ?_, ?_⟩
  · intro n hn hne
    simp [enrichRow, pyOr, hn, hne]
  · intro h0 i hi hne
    rcases truthyS_eq_false.mp h0 with hdn | hdn <;>
      simp [enrichRow, pyOr, hdn, hi, hne]
  · intro h0 h1
    rcases truthyS_eq_false.mp h0 with hdn | hdn <;>
      rcases truthyS_eq_false.mp h1 with hdi | hdi <;>
        simp [enrichRow, pyOr, hdn, hdi]

/-- Witness for C3 at the spec's concrete phone numbers. -/
theorem c3_phone_preference_witness :
    dPhones.nationalPhoneNumber = some "011-123" ∧
    ("011-123" : String) ≠ "" ∧
    (enrichRow dPhones sampleSearchRow "t").Phone = "011-123" ∧
    (enrichRow dIntlOnly sampleSearchRow "t").Phone = "+27-11-123" ∧
    (enrichRow emptyDetails sampleSearchRow "t").Phone = "N/A" :=
  ⟨rfl, by decide,
   (c3_phone_preference dPhones sampleSearchRow "t").1 "011-123" rfl (by decide),
   (c3_phone_preference dIntlOnly sampleSearchRow "t").2.1 (by decide)
     "+27-11-123" rfl (by decide),
   (c3_phone_preference emptyDetails sampleSearchRow "t").2.2
     (by decide) (by decide)⟩

/-- C5: the website field is a string (never null by type); a search row's
website defaults to the empty string when the response lacks one, and an
enriched row's Website prefers the details response's own (truthy) website,
else the search row's website, else the empty string. -/
theorem c5_website_default (p : RawPlace) (d : DetailsResp) (b : SearchResult)
    (now : String) :
    (p.websiteUri = Option.none → (toSearchResult p).website = "") ∧
    (∀ w, d.websiteUri = some w → w ≠ "" → (enrichRow d b now).Website = w) ∧
    (truthyS d.websiteUri = false → (enrichRow d b now).Website = b.website) ∧
    (truthyS d.websiteUri = false → b.website = "" →
      (enrichRow d b now).Website = "") := by
  refine ⟨?_, ?_, ?_, ?_⟩
  · intro h
    simp [toSearchResult, h]
  · intro w hw hne
    simp [enrichRow, pyOr, hw, hne]
  · intro h0
    rcases truthyS_eq_false.mp h0 with h | h <;>
      by_cases hb : b.website = "" <;> simp [enrichRow, pyOr, h, hb]
  · intro h0 hb
    rcases truthyS_eq_false.mp h0 with h | h <;> simp [enrichRow, pyOr, h, hb]

/-- Witness for C5 at concrete responses. -/
theorem c5_website_default_witness :
    (toSearchResult sampleRawPlace).website = "" ∧
    (enrichRow dSite sampleSearchRow "t").Website = "http://example.com" ∧
    (enrichRow emptyDetails sampleSearchRow "t").Website = "" :=
  ⟨(c5_website_default sampleRawPlace emptyDetails sampleSearchRow "t").1 rfl,
   (c5_website_default sampleRawPlace dSite sampleSearchRow "t").2.1
     "http://example.com" rfl (by decide),
   (c5_website_default sampleRawPlace emptyDetails sampleSearchRow "t").2.2.2
     (by decide) rfl⟩

/-- C6: when both spreadsheet backends raise, the export falls back to CSV:
the bytes are the UTF-8 serialization preceded by the byte-order marker, the
MIME type is "text/csv" and the filename ends in ".csv"; and the fallback
chain advances on any backend exception, regardless of its message. -/
theorem c6_export_fallback (csv : String) (xw : Except String (List Nat))
    (msg msg2 : String) :
    ((dataframe_to_excel_bytes (Except.error msg) (Except.error msg2) csv).mime =
        "text/csv") ∧
    (∃ stem,
      (dataframe_to_excel_bytes (Except.error msg) (Except.error msg2) csv).filename =
        stem ++ ".csv") ∧
    ((dataframe_to_excel_bytes (Except.error msg) (Except.error msg2) csv).bytes =
      encodeUtf8Sig csv) ∧
    ((dataframe_to_excel_bytes (Except.error msg) (Except.error msg2) csv).bytes.take 3 =
      [0xEF, 0xBB, 0xBF]) ∧
    (dataframe_to_excel_bytes (Except.error msg) xw csv =
      dataframe_to_excel_bytes (Except.error msg2) xw csv) := by
  refine ⟨rfl, ?_, rfl, ?_, ?_⟩
  · refine ⟨"business_list", ?_⟩
    show ("business_list.csv" : String) = "business_list" ++ ".csv"
    decide
  · simp [dataframe_to_excel_bytes, encodeUtf8Sig]
  · cases xw <;> rfl

/-- C7 counterexample: a record whose resolved Website is the literal "N/A"
is *retained* by the post-enrichment filter (the predicate classifies "N/A"
as no-site), not excluded as the claim states. -/
theorem c7_postfilter_counterexample :
    sampleRowNA.Website = "N/A" ∧
    postFilter true [sampleRowNA] = [sampleRowNA] := by
  constructor
  · rfl
  · decide

/-- C7 amended: when "only no-website" is enabled, the post-enrichment pass
excludes exactly the records whose resolved Website the predicate classifies
as a real site; a Website equal to "N/A" is classified as no-site and the
record is kept. -/
theorem c7_postfilter_amended (rs : List DetailedRecord) (r : DetailedRecord) :
    (r ∈ rs → has_site (PyVal.str r.Website) = true → r ∉ postFilter true rs) ∧
    (r ∈ rs → r.Website = "N/A" → r ∈ postFilter true rs) := by
  constructor
  · intro _ hsite hmem
    simp only [postFilter, if_true] at hmem
    rcases List.mem_filter.mp hmem with ⟨-, hpred⟩
    rw [hsite] at hpred
    simp at hpred
  · intro hmem hNA
    simp only [postFilter, if_true]
    refine List.mem_filter.mpr ⟨hmem, ?_⟩
    rw [hNA]
    decide

/-- Witness for C7: a record with a real website is excluded; the "N/A"
record is kept. -/
theorem c7_postfilter_amended_witness :
    sampleRowSite ∈ [sampleRowSite] ∧
    has_site (PyVal.str sampleRowSite.Website) = true ∧
    sampleRowSite ∉ postFilter true [sampleRowSite] ∧
    sampleRowNA ∈ postFilter true [sampleRowNA] :=
  ⟨by simp, by decide,
   (c7_postfilter_amended [sampleRowSite] sampleRowSite).1 (by simp) (by decide),
   (c7_postfilter_amended [sampleRowNA] sampleRowNA).2 (by simp) rfl⟩

/-- C8 counterexample: the pre-details filter is itself conditioned on the
"only no-website" checkbox; with the box unchecked, a search row with a real
website stays in the list handed to the enrichment/details phase. -/
theorem c8_prefilter_counterexample :
    has_site (PyVal.str (SearchResult.website
      { sampleSearchRow with website := "http://example.com" })) = true ∧
    preFilter false [{ sampleSearchRow with website := "http://example.com" }] =
      [{ sampleSearchRow with website := "http://example.com" }] :=
  ⟨by decide, rfl⟩

/-- C8 amended: both filter passes are conditioned on the "only no-website"
checkbox.  When it is checked, the pre-filter runs before enrichment and no
search row classified as having a real website reaches the details phase
(the enrichment consumes exactly the pre-filtered list); when it is
unchecked, both passes are identity. -/
theorem c8_prefilter_amended (places : List SearchResult)
    (rs : List DetailedRecord) :
    (∀ p ∈ preFilter true places, has_site (PyVal.str p.website) = false) ∧
    (preFilter false places = places) ∧
    (postFilter false rs = rs) ∧
    (∀ (details : Option String → DetailsResp) (now : String),
      preFilter true places ≠ [] →
      run_pipeline true places details now =
        some (postFilter true
          (enrich_with_details_v1 details now (preFilter true places)).1)) := by
  refine ⟨?_, rfl, rfl, ?_⟩
  · intro p hp
    simp only [preFilter, if_true] at hp
    rcases List.mem_filter.mp hp with ⟨-, hpred⟩
    simpa using hpred
  · intro details now hne
    simp [run_pipeline, hne]

/-- Witness for C8: a no-website row survives the checked pre-filter and is
classified no-site; the pipeline with the box checked enriches exactly the
pre-filtered list. -/
theorem c8_prefilter_amended_witness :
    sampleSearchRow ∈ preFilter true [sampleSearchRow] ∧
    has_site (PyVal.str sampleSearchRow.website) = false ∧
    preFilter true [sampleSearchRow] ≠ [] ∧
    run_pipeline true [sampleSearchRow] (fun _ => emptyDetails) "t" =
      some (postFilter true
        (enrich_with_details_v1 (fun _ => emptyDetails) "t"
          (preFilter true [sampleSearchRow])).1) :=
  ⟨by decide,
   (c8_prefilter_amended [sampleSearchRow] []).1 sampleSearchRow (by decide),
   by decide,
   (c8_prefilter_amended [sampleSearchRow] []).2.2.2
     (fun _ => emptyDetails) "t" (by decide)⟩

/-- C10: an empty input returns immediately with no rows and no progress
reports, and on a non-empty input every reported progress fraction
`i / len(raw_places)` lies in the half-open interval (0, 1]. -/
theorem c10_progress_fractions (details : Option String → DetailsResp)
    (now : String) :
    (enrich_with_details_v1 details now [] = ([], [])) ∧
    (∀ (l : List SearchResult), l ≠ [] →
      ∀ q ∈ (enrich_with_details_v1 details now l).2, 0 < q ∧ q ≤ 1) := by
  constructor
  · simp [enrich_with_details_v1]
  · intro l hl q hq
    unfold enrich_with_details_v1 at hq
    rw [if_neg hl] at hq
    obtain ⟨i, hi, rfl⟩ := List.mem_map.mp hq
    rw [List.mem_range] at hi
    have hn : 0 < (l.length : ℚ) := by
      have := List.length_pos.mpr hl
      exact_mod_cast this
    have hi1 : (0 : ℚ) < (i : ℚ) + 1 := by
      have := Nat.succ_pos i
      exact_mod_cast this
    refine ⟨div_pos hi1 hn, ?_⟩
    rw [div_le_one hn]
    have h1 : i + 1 ≤ l.length := hi
    exact_mod_cast h1

/-- Witness for C10: a one-row input reports the single fraction 1, which is
in (0, 1]. -/
theorem c10_progress_fractions_witness :
    ([sampleSearchRow] ≠ ([] : List SearchResult)) ∧
    (enrich_with_details_v1 (fun _ => emptyDetails) "t" [] = ([], [])) ∧
    (0 < (1 : ℚ) ∧ (1 : ℚ) ≤ 1) :=
  ⟨by simp,
   (c10_progress_fractions (fun _ => emptyDetails) "t").1,
   (c10_progress_fractions (fun _ => emptyDetails) "t").2 [sampleSearchRow]
     (by simp) 1 (by norm_num [enrich_with_details_v1])⟩

/-- C9 counterexample: the website predicate is not idempotent.  At the input
`None` the predicate answers `false`, but applied to its own (boolean) result
it answers `true`, because `str(False) = "False"` is a non-empty non-sentinel
string. -/
theorem c9_has_site_not_idempotent_counterexample :
    ¬ (has_site (PyVal.bool (has_site PyVal.none)) = has_site PyVal.none) := by
  decide

/-- C9 amended: applying `has_site` to its own result always yields `true`
(both `"True"` and `"False"` stringify to non-empty non-sentinel strings), so
double application agrees with single application exactly on the values the
predicate already classifies as `true`. -/
theorem c9_has_site_double_application (x : PyVal) :
    has_site (PyVal.bool (has_site x)) = true := by
  cases h : has_site x <;> decide

end BusinessFinder
